import Mathlib

/-!
Verification of the SEC financial-statement extraction core (`app/services/
sec_service.py`, `app/services/xbrl_parser.py`, `app/services/financial_ratios.py`).

Conventions of the shallow embedding:
* Python dicts become association lists `List (String × α)`; lookup is `alookup`
  (first entry with the key) and insertion keeps Python-dict semantics
  (overwrite in place, append at the end otherwise).
* Python floats are modelled by `ℚ`; all arithmetic appearing in the claims is
  exact at the inputs considered, so no rounding of the binary representation
  is observable.
* `value.get('k')` with no default becomes an `Option` field; `.get('k', d)`
  becomes the field with `getD d` at the use site.
* Failure that Python signals by returning `{}` is modelled by `Option`
  (`none` = empty dict returned).
-/

/-!
Ratio calculator (`app/services/financial_ratios.py`). Python float arithmetic
is modelled exactly on `ℚ`; every quantity the claims evaluate is exactly
representable, so the binary float rounding of the source is unobservable.
The operations are spelled with `Rat.divInt`-based wrappers because the
Batteries field operations on `ℚ` are irreducible and would block kernel
evaluation of concrete instances.
-/

/-- Python substring test `needle in hay` on the underlying character lists. -/
def listSub : List Char → List Char → Bool
  | needle, [] => needle.isEmpty
  | needle, c :: rest => needle.isPrefixOf (c :: rest) || listSub needle rest

/-- Python `needle in hay` for strings. -/
def strContains (hay needle : String) : Bool :=
  listSub needle.data hay.data

/-- Python `s.lower()`, character by character. (Lean's `String.toLower` is
extensionally the same but is built on byte-position recursion that the
kernel cannot evaluate.) -/
def pyLower (s : String) : String :=
  String.mk (s.data.map Char.toLower)

/-- The three statement buckets of the concept classifier. -/
inductive Bucket where
  | income_statement
  | balance_sheet
  | cash_flow
deriving DecidableEq, Repr

/-- Keyword list for the income-statement bucket
(`SECService._categorize_concepts_by_statement`, sec_service.py lines 474-477). -/
def income_statement_keywords : List String :=
  ["revenue", "sales", "income", "profit", "loss", "earnings", "expense", "cost",
   "gross", "operating", "eps", "per share", "research", "development"]

/-- Keyword list for the balance-sheet bucket (sec_service.py lines 478-482). -/
def balance_sheet_keywords : List String :=
  ["asset", "liability", "equity", "cash", "receivable", "payable", "inventory",
   "debt", "stock", "capital", "retained", "current", "total", "shares",
   "other comprehensive income", "goodwill", "intangible", "available for sale"]

/-- Keyword list for the cash-flow bucket (sec_service.py lines 483-487).
The entry "Increase (Decrease)" is kept verbatim from the source; the label is
lower-cased before matching, so this entry can never match. -/
def cash_flow_keywords : List String :=
  ["cash flow", "operating activities", "investing activities", "financing activities",
   "cash provided", "cash used", "payments", "proceeds", "capital expenditures",
   "proceeds from", "payments to", "payments for repurchases of common stock",
   "Increase (Decrease)", "increase", "decrease", "depreciation", "amortization"]

/-- Keyword score: `for keyword in keywords: if keyword in description: score += 1`
(sec_service.py lines 512-516). -/
def score (keywords : List String) (description : String) : Nat :=
  (keywords.filter (fun k => strContains description k)).length

/-- Python `max(scores.keys(), key=lambda k: scores[k])` over the dict with
insertion order income_statement, balance_sheet, cash_flow: the running best is
replaced only on a strictly greater score (sec_service.py line 521). After the
first step the running score is `sb` when `sb > si` and `si` otherwise, which
gives the two comparisons below. -/
def max_by_score (si sb sc : Nat) : Bucket :=
  if sb > si then
    if sc > sb then Bucket.cash_flow else Bucket.balance_sheet
  else
    if sc > si then Bucket.cash_flow else Bucket.income_statement

/-- Score of a given bucket, i.e. the Python dict access `scores[best_statement]`. -/
def score_of (b : Bucket) (si sb sc : Nat) : Nat :=
  match b with
  | .income_statement => si
  | .balance_sheet => sb
  | .cash_flow => sc

/-- Python `description = concept_data.get('label') or concept_name or ''`
followed by `str(description).lower()` (sec_service.py lines 491-495).
`or` picks the first truthy operand: a present non-empty label, else a
non-empty concept name, else the empty string. -/
def describe (label : Option String) (concept_name : String) : String :=
  let d :=
    match label with
    | some l => if l.isEmpty then (if concept_name.isEmpty then "" else concept_name) else l
    | none => if concept_name.isEmpty then "" else concept_name
  pyLower d

/-- Classification of one concept description
(`SECService._categorize_concepts_by_statement` body, sec_service.py lines
497-524). Input is the already lower-cased description. `none` means the
concept is appended to no bucket. -/
def classify_concept (description : String) : Option Bucket :=
  if strContains description "increase" || strContains description "decrease" then
    some Bucket.cash_flow
  else if strContains description "comprehensive income" then
    some Bucket.balance_sheet
  else
    let si := score income_statement_keywords description
    let sb := score balance_sheet_keywords description
    let sc := score cash_flow_keywords description
    if si != 0 || sb != 0 || sc != 0 then
      let best := max_by_score si sb sc
      if score_of best si sb sc > 0 then some best else none
    else
      none

/-- The first bucket, in the fixed order income_statement, balance_sheet,
cash_flow, whose score reaches the maximum. Stated from the spec's words for
comparison with `max_by_score`. -/
def first_at_max (si sb sc : Nat) : Bucket :=
  if si = max si (max sb sc) then Bucket.income_statement
  else if sb = max si (max sb sc) then Bucket.balance_sheet
  else Bucket.cash_flow

/-- Classifier as the spec describes it: score each bucket by keyword
substring counts, drop the concept when all scores are zero, otherwise take
the first bucket reaching the maximum score. -/
def claim_classify (description : String) : Option Bucket :=
  let si := score income_statement_keywords description
  let sb := score balance_sheet_keywords description
  let sc := score cash_flow_keywords description
  if si = 0 && sb = 0 && sc = 0 then none
  else some (first_at_max si sb sc)

/-- Association-list lookup, Python-dict access semantics (first entry wins;
the builders below keep keys unique, matching dict behaviour). -/
def alookup (k : String) : List (String × α) → Option α
  | [] => none
  | p :: rest => if p.1 = k then some p.2 else alookup k rest

/-- One reported value entry of the SEC company-facts JSON
(one element of `concept_data['units'][unit_key]`). `Option` fields are the
dict keys read with `value.get(...)` and no default. -/
structure SECValue where
  form : Option String
  end_ : Option String
  fy : Option Int
  fp : Option String
  val : Option ℚ
  filed : Option String
  accn : Option String
deriving DecidableEq, Repr

/-- The period filter of the concept-selection pass of
`SECService._extract_financial_data` (sec_service.py lines 244-259): form
matches exactly, the end date is non-empty and contains the period string, the
fiscal-period tag is whitelisted, and the value is not null. -/
def conceptSelectPred (report_type period : String) (v : SECValue) : Bool :=
  (v.form == some report_type)
  && (!(v.end_.getD "").isEmpty && strContains (v.end_.getD "") period)
  && ((v.fp.getD "") == "FY" || (v.fp.getD "") == "Q4" || (v.fp.getD "") == ""
      || ["Q1", "Q2", "Q3", "Q4"].contains (v.fp.getD ""))
  && v.val.isSome

/-- The period filter of the per-concept value-selection pass of
`SECService._extract_financial_data` (sec_service.py lines 301-318): the same
conjunction as `conceptSelectPred`, except that no null check on `val` is
performed. -/
def valueSelectPred (report_type period : String) (v : SECValue) : Bool :=
  (v.form == some report_type)
  && (!(v.end_.getD "").isEmpty && strContains (v.end_.getD "") period)
  && ((v.fp.getD "") == "FY" || (v.fp.getD "") == "Q4" || (v.fp.getD "") == ""
      || ["Q1", "Q2", "Q3", "Q4"].contains (v.fp.getD ""))

/-- The period-match predicate exactly as the claim words it: form equality,
period a substring of the end date, fiscal period in the whitelist, value not
null. -/
def periodMatchClaim (report_type period : String) (v : SECValue) : Bool :=
  (v.form == some report_type)
  && strContains (v.end_.getD "") period
  && ((v.fp.getD "") == "FY" || (v.fp.getD "") == "Q4" || (v.fp.getD "") == ""
      || (v.fp.getD "") == "Q1" || (v.fp.getD "") == "Q2" || (v.fp.getD "") == "Q3")
  && v.val.isSome

/-- The core of the claim predicate without the null-value conjunct, with the
non-empty end-date conjunct the code imposes. -/
def periodMatchCore (report_type period : String) (v : SECValue) : Bool :=
  (v.form == some report_type)
  && (!(v.end_.getD "").isEmpty && strContains (v.end_.getD "") period)
  && ((v.fp.getD "") == "FY" || (v.fp.getD "") == "Q4" || (v.fp.getD "") == ""
      || (v.fp.getD "") == "Q1" || (v.fp.getD "") == "Q2" || (v.fp.getD "") == "Q3")

/-- One concept of the company-facts JSON: its label (when present) and its
`units` dict mapping unit names to reported value lists. A missing `units`
key and an empty `units` dict behave identically in the source (no value is
found) and are both modelled by the empty list. -/
structure ConceptData where
  label : Option String
  units : List (String × List SECValue)
deriving DecidableEq, Repr

/-- Concept-selection pass for one concept (sec_service.py lines 241-266):
the concept is retained when some reported value in some unit passes
`conceptSelectPred`. -/
def has_reported_value (report_type period : String) (cd : ConceptData) : Bool :=
  cd.units.any fun u => u.2.any (conceptSelectPred report_type period)

/-- Value-selection pass for one concept (sec_service.py lines 297-335): the
first value, in unit order then value order, passing `valueSelectPred`, with
its unit key; the nested for/else/break keeps exactly the first match. -/
def select_value (report_type period : String) (cd : ConceptData) :
    Option (String × SECValue) :=
  cd.units.findSome? fun u =>
    (u.2.find? (fun v => valueSelectPred report_type period v)).map (fun v => (u.1, v))

/-- The dict stored in a statement bucket for a selected concept value
(sec_service.py lines 322-331). -/
structure StoredFact where
  value : Option ℚ
  unit : String
  period : Option String
  fiscal_year : Option Int
  fiscal_period : Option String
  filing_date : Option String
  accession_number : Option String
  label : String
deriving DecidableEq, Repr

/-- Build the stored statement entry for concept `name` from the selected
unit/value pair (sec_service.py lines 322-331). -/
def stored_of (cd : ConceptData) (name : String) (u : String) (v : SECValue) : StoredFact :=
  ⟨v.val, u, v.end_, v.fy, v.fp, v.filed, v.accn, cd.label.getD name⟩

/-- The three name lists accumulated by
`SECService._categorize_concepts_by_statement` (sec_service.py lines 466-470). -/
structure CategorizedNames where
  income_statement : List String
  balance_sheet : List String
  cash_flow : List String
deriving DecidableEq, Repr

/-- The main classification loop (sec_service.py lines 490-524): each concept
is appended, in iteration order, to the bucket `classify_concept` picks for its
description. -/
def categorize_concepts_by_statement (facts : List (String × ConceptData)) :
    CategorizedNames :=
  facts.foldl
    (fun acc c =>
      match classify_concept (describe c.2.label c.1) with
      | some Bucket.income_statement =>
          CategorizedNames.mk (acc.income_statement ++ [c.1]) acc.balance_sheet acc.cash_flow
      | some Bucket.balance_sheet =>
          CategorizedNames.mk acc.income_statement (acc.balance_sheet ++ [c.1]) acc.cash_flow
      | some Bucket.cash_flow =>
          CategorizedNames.mk acc.income_statement acc.balance_sheet (acc.cash_flow ++ [c.1])
      | none => acc)
    (CategorizedNames.mk [] [] [])

/-- The statement-classified result of `SECService._extract_financial_data`.
The Python dict also carries `raw_data`, `all_labels` and `all_concepts`
entries, which no claim consults and which never make the dict empty. -/
structure Bundle where
  income_statement : List (String × StoredFact)
  balance_sheet : List (String × StoredFact)
  cash_flow : List (String × StoredFact)
deriving DecidableEq, Repr

/-- The company-facts JSON `facts` object: category name (for example
`us-gaap`) to concepts. -/
abbrev FactsData := List (String × List (String × ConceptData))

/-- The `facts` branch of `SECService._extract_financial_data`
(sec_service.py lines 216-338): flatten categories into
`category.concept` keys, keep the concepts passing the concept-selection pass,
classify them, and store the first period-matching value of each classified
concept in its bucket. Concepts whose value-selection pass finds nothing get
no entry. -/
def extract_financial_data (data : FactsData) (report_type period : String) : Bundle :=
  let all_concepts :=
    data.flatMap fun cat => cat.2.map fun c => (cat.1 ++ "." ++ c.1, c.2)
  let reported := all_concepts.filter fun c => has_reported_value report_type period c.2
  let cats := categorize_concepts_by_statement reported
  let entryFor := fun (n : String) =>
    (alookup n reported).bind fun cd =>
      (select_value report_type period cd).map fun uv => (n, stored_of cd n uv.1 uv.2)
  Bundle.mk (cats.income_statement.filterMap entryFor)
    (cats.balance_sheet.filterMap entryFor)
    (cats.cash_flow.filterMap entryFor)

/-- The value the fact loop is written to store for one XBRL fact: the float
parse when the text passes the digit filter, otherwise the raw string
(xbrl_parser.py line 116; the loop is unreachable at run time, see
`parse_xbrl_instance`). -/
inductive FactValue where
  | num (q : ℚ)
  | str (s : String)
deriving DecidableEq, Repr

/-- The fact dict the loop body at xbrl_parser.py lines 115-121 is written to
build (never at run time, see `parse_xbrl_instance`). The `context` field (a
copy of the resolved context) is claim-irrelevant and omitted. -/
structure XFact where
  value : FactValue
  unit_ref : Option String
  decimals : Option String
  raw_value : String
deriving DecidableEq, Repr

/-- One fact element of the instance document — what the query at
xbrl_parser.py line 100 is written to iterate over (its namespace-stripped
tag name, text, and attributes, lines 100-112). The element list is the input
of the parse model. -/
structure FactElem where
  concept : String
  text : Option String
  unitRef : Option String
  decimals : Option String
deriving DecidableEq, Repr

/-- Python `value.replace('.', '').replace('-', '').isdigit()`: after deleting
every dot and hyphen the remainder is non-empty and all digits. -/
def digitFilterOk (s : String) : Bool :=
  let t := s.data.filter fun c => !(c == '.') && !(c == '-')
  !t.isEmpty && t.all Char.isDigit

/-- Numeric value of a digit list read as a decimal integer. -/
def digitsToNat (cs : List Char) : Nat :=
  cs.foldl (fun n c => n * 10 + (c.toNat - 48)) 0

/-- Python `float(value)` on strings made of digits, dots and hyphens — the
only strings the digit filter lets through. Valid inputs have an optional
single leading hyphen, at most one dot and at least one digit; everything
else (for example "1.2.3" or "--5") raises `ValueError`, modelled as `none`.
Whitespace, exponents and inf/nan cannot reach this function because any other
character already fails the digit filter. The value is computed exactly as a
rational via `Rat.divInt` (the Batteries field operations on `ℚ` are
irreducible and would block kernel evaluation). -/
def parseDigitDotDash (s : String) : Option ℚ :=
  let cs := s.data
  let neg := cs.head? == some '-'
  let body := if neg then cs.tail else cs
  if body.any (fun c => c == '-') then none
  else if (body.filter (fun c => c == '.')).length > 1 then none
  else if (body.filter Char.isDigit).isEmpty then none
  else if !(body.all fun c => c.isDigit || c == '.') then none
  else
    let intPart := body.takeWhile fun c => !(c == '.')
    let fracPart := (body.dropWhile fun c => !(c == '.')).tail
    let n : Int := (digitsToNat intPart) * (10 : Nat) ^ fracPart.length + digitsToNat fracPart
    some (Rat.divInt (if neg then -n else n) ((10 : Nat) ^ fracPart.length))

/-- The conditional expression of xbrl_parser.py line 116 (unreachable at run
time, see `parse_xbrl_instance`):
`float(value) if value.replace('.','').replace('-','').isdigit() else value`.
`none` models the `ValueError` that `float` raises when the guard passes on a
string that is not a valid float literal. -/
def coerceValue (s : String) : Option FactValue :=
  if digitFilterOk s then (parseDigitDotDash s).map FactValue.num
  else some (FactValue.str s)

/-- Python falsiness of `value.strip()`: the string is empty or entirely
whitespace. -/
def strippedEmpty (s : String) : Bool :=
  s.data.all Char.isWhitespace

/-- The inclusion test of xbrl_parser.py line 114 as written (unreachable at
run time, see `parse_xbrl_instance`): the element's text is present and
non-empty after stripping. Kept to state what the claim predicts for a fact
element. -/
def includedElem (e : FactElem) : Bool :=
  match e.text with
  | none => false
  | some t => !strippedEmpty t

/-- `XBRLParser.parse_xbrl_instance` (xbrl_parser.py lines 65-131), restricted
to its facts mapping. The fact loop at line 100 begins with
`root.findall('.//xbrl:*')` called WITHOUT a namespaces argument; on every
Python able to run this repository (3.10+, required by the `str | None`
annotations in sec_service.py) that call raises
`SyntaxError: prefix 'xbrl' not found in prefix map` before any fact element
is examined, and the broad handler at lines 129-131 turns the exception into
the empty dict. The function therefore returns the empty result for every
instance document; the inclusion test and numeric coercion of lines 114-121
are unreachable. `none` models the empty dict returned. -/
def parse_xbrl_instance (_elems : List FactElem) :
    Option (List (String × XFact)) :=
  none

/-- The four-bucket dict built by `XBRLParser.categorize_financial_data`
(xbrl_parser.py lines 233-238). -/
structure Categorized where
  income_statement : List (String × XFact)
  balance_sheet : List (String × XFact)
  cash_flow : List (String × XFact)
  other : List (String × XFact)
deriving DecidableEq, Repr

/-- The dict literal of xbrl_parser.py lines 233-238: four keys are always
present, so the dict is never empty (and therefore always truthy in Python). -/
def Categorized.asDict (c : Categorized) : List (String × List (String × XFact)) :=
  [("income_statement", c.income_statement), ("balance_sheet", c.balance_sheet),
   ("cash_flow", c.cash_flow), ("other", c.other)]

/-- XBRL concept patterns for the income statement
(xbrl_parser.py lines 200-210). -/
def xbrl_income_patterns : List String :=
  ["Revenues", "RevenueFromContractWithCustomerExcludingAssessedTax",
   "SalesRevenueNet", "CostOfGoodsAndServicesSold", "CostOfRevenue",
   "GrossProfit", "OperatingExpenses", "SellingAndMarketingExpense",
   "GeneralAndAdministrativeExpense", "ResearchAndDevelopmentExpense",
   "OperatingIncomeLoss", "InterestExpense", "InterestIncome",
   "IncomeTaxExpenseBenefit", "NetIncomeLoss", "EarningsPerShareBasic",
   "EarningsPerShareDiluted", "WeightedAverageNumberOfSharesOutstandingBasic",
   "WeightedAverageNumberOfSharesOutstandingDiluted",
   "IncomeLossFromContinuingOperationsBeforeIncomeTaxes",
   "IncomeLossFromContinuingOperationsAfterIncomeTaxes"]

/-- XBRL concept patterns for the balance sheet (xbrl_parser.py lines 211-221). -/
def xbrl_balance_patterns : List String :=
  ["Assets", "CurrentAssets", "CashAndCashEquivalentsAtCarryingValue",
   "CashAndCashEquivalents", "AccountsReceivableNetCurrent", "InventoryNet",
   "InventoryGross", "PrepaidExpenseAndOtherAssetsCurrent", "PropertyPlantAndEquipmentNet",
   "PropertyPlantAndEquipmentGross", "IntangibleAssetsNetExcludingGoodwill",
   "IntangibleAssetsGrossExcludingGoodwill", "Goodwill", "Liabilities",
   "CurrentLiabilities", "AccountsPayableCurrent", "AccruedLiabilitiesCurrent",
   "LongTermDebtNoncurrent", "DeferredTaxLiabilitiesNoncurrent", "StockholdersEquity",
   "CommonStockValue", "RetainedEarningsAccumulatedDeficit", "TreasuryStockValue",
   "AdditionalPaidInCapital", "TotalStockholdersEquity"]

/-- XBRL concept patterns for the cash-flow statement
(xbrl_parser.py lines 222-230). -/
def xbrl_cash_flow_patterns : List String :=
  ["NetCashProvidedByUsedInOperatingActivities", "NetCashProvidedByUsedInInvestingActivities",
   "NetCashProvidedByUsedInFinancingActivities", "CashAndCashEquivalentsPeriodIncreaseDecrease",
   "CashAndCashEquivalentsAtCarryingValue", "PaymentsToAcquirePropertyPlantAndEquipment",
   "ProceedsFromSaleOfPropertyPlantAndEquipment", "PaymentsForBusinessAcquisitionsNetOfCashAcquired",
   "ProceedsFromIssuanceOfCommonStock", "PaymentsForRepurchaseOfCommonStock",
   "PaymentsOfDividends", "CashAndCashEquivalentsAtBeginningOfPeriod",
   "CashAndCashEquivalentsAtEndOfPeriod"]

/-- Does some pattern of the list occur, lower-cased, inside the lower-cased
concept name (xbrl_parser.py lines 251-253)? -/
def patternHit (concept_lower : String) (patterns : List String) : Bool :=
  patterns.any fun pat => strContains concept_lower (pyLower pat)

/-- `XBRLParser.categorize_financial_data` (xbrl_parser.py lines 240-263):
increase/decrease concepts go to cash_flow; otherwise the first category in
insertion order (income_statement, balance_sheet, cash_flow) with a matching
pattern wins; unmatched concepts go to `other`. -/
def categorize_financial_data (facts : List (String × XFact)) : Categorized :=
  facts.foldl
    (fun acc f =>
      let cl := pyLower f.1
      if strContains cl "increase" || strContains cl "decrease" then
        Categorized.mk acc.income_statement acc.balance_sheet (acc.cash_flow ++ [f]) acc.other
      else if patternHit cl xbrl_income_patterns then
        Categorized.mk (acc.income_statement ++ [f]) acc.balance_sheet acc.cash_flow acc.other
      else if patternHit cl xbrl_balance_patterns then
        Categorized.mk acc.income_statement (acc.balance_sheet ++ [f]) acc.cash_flow acc.other
      else if patternHit cl xbrl_cash_flow_patterns then
        Categorized.mk acc.income_statement acc.balance_sheet (acc.cash_flow ++ [f]) acc.other
      else
        Categorized.mk acc.income_statement acc.balance_sheet acc.cash_flow (acc.other ++ [f]))
    (Categorized.mk [] [] [] [])

/-- The result dict of `XBRLParser.get_financial_statements_xbrl`
(xbrl_parser.py lines 299-307). The contexts/schema/labels/xbrl_files/
parsing_method entries are claim-irrelevant and omitted; when the function
returns a non-empty dict it always contains the `financial_statements` key. -/
structure XBRLResult where
  financial_statements : Categorized
  total_facts : Nat
deriving DecidableEq, Repr

/-- Tail of `XBRLParser.get_financial_statements_xbrl` (xbrl_parser.py lines
280-319) given the outcome of locating and parsing the instance document:
`none` for the instance argument models xbrl_files being empty, the instance
URL being absent, or `parse_xbrl_instance` having returned an empty dict. -/
def xbrl_build_result (instanceFacts : Option (List (String × XFact))) : Option XBRLResult :=
  match instanceFacts with
  | some facts => some (XBRLResult.mk (categorize_financial_data facts) facts.length)
  | none => none

/-- The three resolution tiers of `SECService.get_financial_statements`. -/
inductive Tier where
  | t1
  | t2
  | t3
deriving DecidableEq, Repr

/-- Per-request outcomes of the external collaborators feeding the resolver:
`xbrl` is the dict returned by `SECService.get_financial_statements_xbrl`
(`none` = empty dict), `filing` the `reported_concepts` dict when
`get_reported_concepts_from_filing` returned one, and `facts3` the
company-facts JSON of the first Tier-3 endpoint that answered 200
(`none` = every endpoint failed, hence `{}` is returned). -/
structure TierInputs where
  xbrl : Option XBRLResult
  filing : Option (List (String × ConceptData))
  facts3 : Option FactsData
deriving Repr

/-- The value returned by `SECService.get_financial_statements`: the Tier-1
XBRL dict, the Tier-2 extraction (whose downstream re-nesting no claim
consults, so the reported concepts are carried as-is), the Tier-3 extracted
bundle, or the empty dict. -/
inductive ResolveResult where
  | tier1 (r : XBRLResult)
  | tier2 (rc : List (String × ConceptData))
  | tier3 (b : Bundle)
  | empty
deriving DecidableEq, Repr

/-- Python truthiness of the returned dict: only the literal `{}` (the
`empty` case) is falsy; the Tier-1 result and the `_extract_financial_data`
dicts always carry at least their fixed keys. -/
def ResolveResult.truthy : ResolveResult → Bool
  | .empty => false
  | _ => true

/-- Tier-3 endpoint loop of `SECService.get_financial_statements`
(sec_service.py lines 128-157): the first endpoint that answers is extracted;
if none answers the empty dict is returned. -/
def tier3_step (t : TierInputs) (report_type period : String) :
    ResolveResult × List Tier :=
  match t.facts3 with
  | some d => (ResolveResult.tier3 (extract_financial_data d report_type period),
      [Tier.t1, Tier.t2, Tier.t3])
  | none => (ResolveResult.empty, [Tier.t1, Tier.t2, Tier.t3])

/-- Tier-2 branch (sec_service.py lines 115-123): invoked only after Tier 1
declined; proceeds to Tier 3 unless `filing_data` is truthy and its
`reported_concepts` entry is a non-empty dict. -/
def tier2_step (t : TierInputs) (report_type period : String) :
    ResolveResult × List Tier :=
  match t.filing with
  | some rc =>
    if !rc.isEmpty then (ResolveResult.tier2 rc, [Tier.t1, Tier.t2])
    else tier3_step t report_type period
  | none => tier3_step t report_type period

/-- `SECService.get_financial_statements` (sec_service.py lines 102-161),
with the list of tiers whose collaborator was invoked. The Tier-1 guard is
`xbrl_data and xbrl_data.get('financial_statements')`: a non-empty Tier-1
dict always carries `financial_statements`, a dict with the four fixed bucket
keys, which is truthy no matter how empty each bucket is. -/
def get_financial_statements (t : TierInputs) (report_type period : String) :
    ResolveResult × List Tier :=
  match t.xbrl with
  | some r =>
    if !r.financial_statements.asDict.isEmpty then (ResolveResult.tier1 r, [Tier.t1])
    else tier2_step t report_type period
  | none => tier2_step t report_type period

/-- `SECService.get_peer_group_analysis` (sec_service.py lines 671-697):
resolve each company, keep the truthy results keyed by CIK, and return the
empty dict when nothing at all was retrieved. -/
def get_peer_group_analysis (tiersOf : String → TierInputs)
    (report_type period : String) (ciks : List String) :
    List (String × ResolveResult) :=
  let pg := ciks.filterMap fun cik =>
    let r := (get_financial_statements (tiersOf cik) report_type period).1
    if r.truthy then some (cik, r) else none
  if pg.isEmpty then [] else pg

/-- Does the Tier-1 classified result populate any of the three statement
buckets the claim speaks about? -/
def anyStatementBucket (c : Categorized) : Bool :=
  !c.income_statement.isEmpty || !c.balance_sheet.isEmpty || !c.cash_flow.isEmpty

/-- Exact rational addition. -/
def qadd (a b : ℚ) : ℚ := Rat.divInt (a.num * b.den + b.num * a.den) (a.den * b.den)

/-- Exact rational subtraction. -/
def qsub (a b : ℚ) : ℚ := Rat.divInt (a.num * b.den - b.num * a.den) (a.den * b.den)

/-- Exact rational multiplication. -/
def qmul (a b : ℚ) : ℚ := Rat.divInt (a.num * b.num) (a.den * b.den)

/-- Exact rational division. Division by zero yields 0, but every division in
`_calculate_ratios` is guarded so the case is unreachable there. -/
def qdiv (a b : ℚ) : ℚ := Rat.divInt (a.num * b.den) (a.den * b.num)

/-- Rounding half to even, as Python `round` and `format` round a value that
is exactly representable. -/
def roundHalfEven (q : ℚ) : Int :=
  let f : Int := q.floor
  let r : ℚ := qsub q (Rat.divInt f 1)
  if r < Rat.divInt 1 2 then f
  else if Rat.divInt 1 2 < r then f + 1
  else if f % 2 = 0 then f else f + 1

/-- Python `round(value, 2)`. -/
def roundTo2 (q : ℚ) : ℚ :=
  Rat.divInt (roundHalfEven (qmul q 100)) 100

/-- Python `f"{value:.2f}"`: the value rounded half-to-even to two decimals,
printed with exactly two fractional digits. (The corner case `-0.00` prints
without the sign here; no claim reaches it.) -/
def formatFixed2 (q : ℚ) : String :=
  let n : Int := roundHalfEven (qmul q 100)
  let a : Nat := n.natAbs
  let fracStr := (if a % 100 < 10 then "0" else "") ++ toString (a % 100)
  (if n < 0 then "-" else "") ++ toString (a / 100) ++ "." ++ fracStr

/-- `FinancialRatioCalculator._format_ratio_value`
(financial_ratios.py lines 328-339). -/
def format_ratio_value (value : ℚ) (label : String) : String :=
  if strContains label "Margin" || strContains label "ROE" || strContains label "ROA"
      || strContains label "ROIC" then
    formatFixed2 value ++ "%"
  else if strContains label "Ratio" || strContains label "Turnover" then
    formatFixed2 value ++ "x"
  else if strContains label "Per Share" || strContains label "Book Value" then
    "$" ++ formatFixed2 value
  else if strContains label "Revenue" then
    "$" ++ formatFixed2 value ++ "M"
  else
    formatFixed2 value

/-- The ratio-result dict of `FinancialRatioCalculator._create_ratio_result`
(financial_ratios.py lines 320-326): the stored value is rounded to two
decimals, the formatted string is rendered from the unrounded value. -/
structure RatioResult where
  value : ℚ
  label : String
  formatted : String
deriving DecidableEq, Repr

/-- `FinancialRatioCalculator._create_ratio_result`. -/
def create_ratio_result (value : ℚ) (label : String) : RatioResult :=
  RatioResult.mk (roundTo2 value) label (format_ratio_value value label)

/-- The 18 semantic keys `FinancialRatioCalculator._extract_key_values`
always populates, in source order (financial_ratios.py lines 97-172). -/
structure ExtractedValues where
  revenue : ℚ
  gross_profit : ℚ
  operating_income : ℚ
  net_income : ℚ
  cost_of_goods_sold : ℚ
  depreciation_amortization : ℚ
  interest_expense : ℚ
  shares_outstanding : ℚ
  total_assets : ℚ
  current_assets : ℚ
  total_liabilities : ℚ
  current_liabilities : ℚ
  total_equity : ℚ
  cash : ℚ
  inventory : ℚ
  accounts_receivable : ℚ
  operating_cash_flow : ℚ
  capex : ℚ
deriving DecidableEq, Repr

/-- `FinancialRatioCalculator._find_value_by_keywords`
(financial_ratios.py lines 174-189): try the keys in order; the first entry
whose `value` field is non-null wins; default 0.0. An entry that is not a
dict or lacks the `value` field is skipped exactly like a null value and is
modelled by `value = none`. -/
def find_value_by_keywords (statement_data : List (String × StoredFact))
    (keywords : List String) : ℚ :=
  match keywords with
  | [] => 0
  | k :: rest =>
    match alookup k statement_data with
    | some e =>
      match e.value with
      | some v => v
      | none => find_value_by_keywords statement_data rest
    | none => find_value_by_keywords statement_data rest

/-- The ordered concept-key list extraction uses for `revenue`
(financial_ratios.py lines 107-109). -/
def revenue_keys : List String :=
  ["us-gaap.Revenues", "us-gaap.SalesRevenueNet",
   "us-gaap.RevenueFromContractWithCustomerExcludingAssessedTax"]

/-- `FinancialRatioCalculator._extract_key_values`
(financial_ratios.py lines 97-172). -/
def extract_key_values (income_statement balance_sheet cash_flow :
    List (String × StoredFact)) : ExtractedValues :=
  ExtractedValues.mk
    (find_value_by_keywords income_statement revenue_keys)
    (find_value_by_keywords income_statement ["us-gaap.GrossProfit"])
    (find_value_by_keywords income_statement ["us-gaap.OperatingIncomeLoss"])
    (find_value_by_keywords income_statement ["us-gaap.NetIncomeLoss"])
    (find_value_by_keywords income_statement
      ["us-gaap.CostOfGoodsAndServicesSold", "us-gaap.CostOfRevenue"])
    (find_value_by_keywords income_statement ["us-gaap.DepreciationAndAmortization"])
    (find_value_by_keywords income_statement ["us-gaap.InterestExpense"])
    (find_value_by_keywords balance_sheet
      ["us-gaap.CommonStockSharesOutstanding", "us-gaap.EntityCommonStockSharesOutstanding",
       "us-gaap.CommonStockSharesIssued", "us-gaap.CommonStockSharesAuthorized"])
    (find_value_by_keywords balance_sheet ["us-gaap.Assets"])
    (find_value_by_keywords balance_sheet ["us-gaap.AssetsCurrent"])
    (find_value_by_keywords balance_sheet ["us-gaap.Liabilities"])
    (find_value_by_keywords balance_sheet ["us-gaap.LiabilitiesCurrent"])
    (find_value_by_keywords balance_sheet ["us-gaap.StockholdersEquity"])
    (find_value_by_keywords balance_sheet
      ["us-gaap.CashAndCashEquivalentsAtCarryingValue", "us-gaap.CashAndCashEquivalents"])
    (find_value_by_keywords balance_sheet ["us-gaap.InventoryNet"])
    (find_value_by_keywords balance_sheet ["us-gaap.AccountsReceivableNetCurrent"])
    (find_value_by_keywords cash_flow
      ["us-gaap.NetCashProvidedByUsedInOperatingActivities"])
    (find_value_by_keywords cash_flow
      ["us-gaap.PaymentsToAcquirePropertyPlantAndEquipment"])

/-- One guarded dict assignment of `_calculate_ratios`: the entry is present
exactly when its precondition holds. -/
def entry (c : Prop) [Decidable c] (k : String) (r : RatioResult) :
    List (String × RatioResult) :=
  if c then [(k, r)] else []

/-- `FinancialRatioCalculator._calculate_ratios`
(financial_ratios.py lines 191-318), entries in source order; Python dict
insertion order is the append order here and every key is distinct. -/
def calculate_ratios (v : ExtractedValues) : List (String × RatioResult) :=
  entry (0 < v.revenue) "revenue"
    (create_ratio_result v.revenue "Revenue")
  ++ entry (0 < v.revenue ∧ 0 < v.gross_profit) "gross_profit_margin"
    (create_ratio_result (qmul (qdiv v.gross_profit v.revenue) 100) "Gross Profit Margin")
  ++ entry (0 < v.revenue ∧ v.operating_income ≠ 0) "operating_margin"
    (create_ratio_result (qmul (qdiv v.operating_income v.revenue) 100) "Operating Margin")
  ++ entry (0 < v.revenue ∧ v.net_income ≠ 0) "net_margin"
    (create_ratio_result (qmul (qdiv v.net_income v.revenue) 100) "Net Margin")
  ++ entry (0 < v.revenue ∧ qadd v.operating_income v.depreciation_amortization ≠ 0)
    "ebitda_margin"
    (create_ratio_result
      (qmul (qdiv (qadd v.operating_income v.depreciation_amortization) v.revenue) 100)
      "EBITDA Margin")
  ++ entry (0 < v.current_liabilities) "current_ratio"
    (create_ratio_result (qdiv v.current_assets v.current_liabilities) "Current Ratio")
  ++ entry (0 < v.current_liabilities) "quick_ratio"
    (create_ratio_result (qdiv (qsub v.current_assets v.inventory) v.current_liabilities)
      "Quick Ratio")
  ++ entry (0 < v.current_liabilities) "cash_ratio"
    (create_ratio_result (qdiv v.cash v.current_liabilities) "Cash Ratio")
  ++ entry (0 < v.total_equity) "debt_to_equity"
    (create_ratio_result (qdiv v.total_liabilities v.total_equity) "Debt to Equity")
  ++ entry (0 < qadd v.total_liabilities v.total_equity) "debt_to_total_capitalization"
    (create_ratio_result
      (qdiv v.total_liabilities (qadd v.total_liabilities v.total_equity))
      "Debt to Total Capitalization")
  ++ entry (0 < v.total_equity) "total_assets_to_equity"
    (create_ratio_result (qdiv v.total_assets v.total_equity) "Total Assets/Equity")
  ++ entry (0 < v.total_equity ∧ v.net_income ≠ 0) "roe"
    (create_ratio_result (qmul (qdiv v.net_income v.total_equity) 100)
      "Return on Equity (ROE)")
  ++ entry (0 < v.total_assets ∧ v.net_income ≠ 0) "roa"
    (create_ratio_result (qmul (qdiv v.net_income v.total_assets) 100)
      "Return on Assets (ROA)")
  ++ entry (0 < qsub v.total_assets v.current_liabilities ∧ v.net_income ≠ 0) "roic"
    (create_ratio_result
      (qmul (qdiv v.net_income (qsub v.total_assets v.current_liabilities)) 100)
      "Return on Invested Capital (ROIC)")
  ++ entry (0 < v.interest_expense) "interest_coverage"
    (create_ratio_result (qdiv v.operating_income v.interest_expense)
      "Interest Coverage Ratio")
  ++ entry (0 < v.inventory) "inventory_turnover"
    (create_ratio_result (qdiv v.cost_of_goods_sold v.inventory) "Inventory Turnover")
  ++ entry (0 < v.revenue) "receivables_ratio"
    (create_ratio_result (qdiv v.accounts_receivable v.revenue) "Receivables Ratio")
  ++ entry (v.net_income ≠ 0) "operating_cash_flow_to_net_income"
    (create_ratio_result (qdiv v.operating_cash_flow v.net_income)
      "Operating Cash Flow/Net Income")
  ++ entry (0 < v.depreciation_amortization) "capex_to_depreciation"
    (create_ratio_result (qdiv v.capex v.depreciation_amortization) "Capex/Depreciation")
  ++ entry (0 < v.total_equity) "book_value"
    (create_ratio_result (qdiv v.total_equity 1000000) "Book Value")
  ++ entry (0 < v.total_equity) "tangible_book_value"
    (create_ratio_result (qdiv v.total_equity 1000000) "Tangible Book Value")
  ++ entry (0 < v.total_assets) "net_working_capital_ratio"
    (create_ratio_result
      (qdiv (qsub v.current_assets v.current_liabilities) v.total_assets)
      "Net Working Capital Ratio")
  ++ entry (0 < v.shares_outstanding ∧ v.net_income ≠ 0) "earnings_per_share"
    (create_ratio_result (qdiv v.net_income v.shares_outstanding) "Earnings Per Share")
  ++ []

/-- The extracted value set of the spec's end-to-end ratio example: revenue
1000, gross_profit 400, total_equity 500, total_liabilities 300,
current_assets 200, current_liabilities 100, net_income 90,
shares_outstanding 10, all other keys 0. -/
def c5_values : ExtractedValues :=
  ExtractedValues.mk 1000 400 0 90 0 0 0 10 0 200 300 100 500 0 0 0 0 0

/-! Theorems. -/

theorem max_by_score_eq_first_at_max (si sb sc : Nat) :
    max_by_score si sb sc = first_at_max si sb sc := by
  unfold max_by_score first_at_max
  split_ifs <;> first | rfl | omega

theorem score_of_max_by_score (si sb sc : Nat) :
    score_of (max_by_score si sb sc) si sb sc = max si (max sb sc) := by
  unfold max_by_score
  split_ifs <;> simp only [score_of] <;> omega

-- sanity examples for the classifier
example : classify_concept "total assets" = some Bucket.balance_sheet := by decide

example : classify_concept "decrease in inventory" = some Bucket.cash_flow := by decide

example : classify_concept "zzz" = none := by decide

theorem fp_whitelist (fp : String) :
    (fp == "FY" || fp == "Q4" || fp == "" || ["Q1", "Q2", "Q3", "Q4"].contains fp)
      = (fp == "FY" || fp == "Q4" || fp == "" || fp == "Q1" || fp == "Q2" || fp == "Q3") := by
  simp only [List.contains_cons, List.contains_nil, Bool.or_false]
  cases h1 : fp == "FY" <;> cases h2 : fp == "Q4" <;> cases h3 : fp == "" <;>
    cases h4 : fp == "Q1" <;> cases h5 : fp == "Q2" <;> cases h6 : fp == "Q3" <;>
    simp [h1, h2, h3, h4, h5, h6]

-- sanity examples for the period predicates
example : conceptSelectPred "10-K" "2023"
    ⟨some "10-K", some "2023-12-31", some 2023, some "FY", some 100, none, none⟩ = true := by
  decide

example : valueSelectPred "10-K" "2023"
    ⟨some "10-K", some "2023-12-31", some 2023, some "FY", none, none, none⟩ = true := by
  decide

example : conceptSelectPred "10-K" "2023"
    ⟨some "10-K", some "2023-12-31", some 2023, some "FY", none, none, none⟩ = false := by
  decide

-- sanity examples for the parser
example : digitFilterOk "1.2.3" = true := by decide

example : parseDigitDotDash "1.2.3" = none := by decide

example : parseDigitDotDash "--5" = none := by decide

example : parseDigitDotDash "-12.5" = some (Rat.divInt (-25) 2) := by decide

example : coerceValue "abc" = some (FactValue.str "abc") := by decide

example : parse_xbrl_instance [FactElem.mk "Revenues" (some "100") none none] =
    none := rfl

-- sanity examples for the ratio calculator
example : formatFixed2 40 = "40.00" := by decide

example : format_ratio_value 9 "Earnings Per Share" = "$9.00" := by decide

example : roundTo2 (Rat.divInt 3 5) = Rat.divInt 3 5 := by decide

/-- C2 counterexample: the claim's period-match predicate is violated by the
code. First, the value-selection pass retains a fact whose `val` is null
(`valueSelectPred` holds, the claimed predicate does not), and such a fact is
actually selected and stored by the value-selection pass. Second, with an
empty period string and an empty end date the claimed predicate holds (the
empty string is a substring of the empty string) but the concept-selection
pass rejects the fact because the code additionally requires a truthy end
date. -/
theorem c2_counterexample :
    (valueSelectPred "10-K" "2023"
        (SECValue.mk (some "10-K") (some "2023-12-31") (some 2023) (some "FY")
          none none none) = true
      ∧ periodMatchClaim "10-K" "2023"
        (SECValue.mk (some "10-K") (some "2023-12-31") (some 2023) (some "FY")
          none none none) = false)
    ∧ select_value "10-K" "2023"
        (ConceptData.mk (some "Revenues")
          [("USD", [SECValue.mk (some "10-K") (some "2023-12-31") (some 2023) (some "FY")
            none none none])])
      = some ("USD",
          SECValue.mk (some "10-K") (some "2023-12-31") (some 2023) (some "FY")
            none none none)
    ∧ (conceptSelectPred "10-K" ""
        (SECValue.mk (some "10-K") (some "") none (some "FY") (some 1) none none) = false
      ∧ periodMatchClaim "10-K" ""
        (SECValue.mk (some "10-K") (some "") none (some "FY") (some 1) none none) = true) := by
  decide

/-- C2 (amended): the concept-selection pass retains a fact iff the form
matches exactly, the end date is non-empty and contains the period string,
the fiscal-period tag is in {FY, Q4, "", Q1, Q2, Q3} and the value is
non-null; the value-selection pass uses the same predicate without the
non-null conjunct. -/
theorem c2_period_match_amended (report_type period : String) (v : SECValue) :
    conceptSelectPred report_type period v
        = (periodMatchCore report_type period v && v.val.isSome)
    ∧ valueSelectPred report_type period v = periodMatchCore report_type period v := by
  unfold conceptSelectPred valueSelectPred periodMatchCore
  rw [fp_whitelist]
  exact ⟨rfl, rfl⟩

/-- C3: for a description free of the increase/decrease/comprehensive-income
short-circuits, the classifier scores each bucket by counting keyword-list
entries occurring as substrings of the lower-cased label, assigns the concept
to the first bucket (in the order income_statement, balance_sheet, cash_flow)
reaching the maximum score, drops the concept when all scores are zero, and is
deterministic. -/
theorem c3_classifier_scoring (label : Option String) (concept_name : String)
    (h1 : strContains (describe label concept_name) "increase" = false)
    (h2 : strContains (describe label concept_name) "decrease" = false)
    (h3 : strContains (describe label concept_name) "comprehensive income" = false) :
    classify_concept (describe label concept_name)
        = claim_classify (describe label concept_name)
    ∧ classify_concept (describe label concept_name)
        = classify_concept (describe label concept_name) := by
  refine ⟨?_, rfl⟩
  generalize describe label concept_name = d at h1 h2 h3
  unfold classify_concept claim_classify
  rw [h1, h2, h3]
  simp only [Bool.or_self, Bool.false_or, if_false, Bool.false_eq_true]
  by_cases hz : score income_statement_keywords d = 0
      ∧ score balance_sheet_keywords d = 0 ∧ score cash_flow_keywords d = 0
  · simp [hz.1, hz.2.1, hz.2.2]
  · have hmax : 0 < max (score income_statement_keywords d)
        (max (score balance_sheet_keywords d) (score cash_flow_keywords d)) := by
      omega
    have hne : (score income_statement_keywords d != 0
        || score balance_sheet_keywords d != 0
        || score cash_flow_keywords d != 0) = true := by
      simp only [bne_iff_ne, ne_eq, Bool.or_eq_true]
      omega
    rw [if_pos hne, score_of_max_by_score, if_pos hmax,
      max_by_score_eq_first_at_max,
      if_neg (by simp only [Bool.and_eq_true, decide_eq_true_eq, and_assoc]; exact hz)]

/-- C4: any (lower-cased) description containing "increase" or "decrease" is
assigned to cash_flow regardless of keyword scores; any remaining description
containing "comprehensive income" is assigned to balance_sheet; in particular
the label "Decrease in Inventory" goes to cash_flow, not balance_sheet, even
though "inventory" is a balance_sheet keyword. -/
theorem c4_classifier_short_circuit :
    (∀ d : String, (strContains d "increase" || strContains d "decrease") = true →
        classify_concept d = some Bucket.cash_flow)
    ∧ (∀ d : String, (strContains d "increase" || strContains d "decrease") = false →
        strContains d "comprehensive income" = true →
        classify_concept d = some Bucket.balance_sheet)
    ∧ classify_concept (describe (some "Decrease in Inventory") "us-gaap.SomeConcept")
        = some Bucket.cash_flow
    ∧ "inventory" ∈ balance_sheet_keywords := by
  refine ⟨?_, ?_, by decide, by decide⟩
  · intro d h
    unfold classify_concept
    rw [h]
    rfl
  · intro d h1 h2
    unfold classify_concept
    rw [h1, h2]
    rfl

/-- C3 witness at a concrete label. -/
theorem c3_classifier_scoring_witness :
    (strContains (describe (some "Total Assets") "us-gaap.Assets") "increase" = false
      ∧ strContains (describe (some "Total Assets") "us-gaap.Assets") "decrease" = false
      ∧ strContains (describe (some "Total Assets") "us-gaap.Assets")
          "comprehensive income" = false)
    ∧ (classify_concept (describe (some "Total Assets") "us-gaap.Assets")
          = claim_classify (describe (some "Total Assets") "us-gaap.Assets")
      ∧ classify_concept (describe (some "Total Assets") "us-gaap.Assets")
          = classify_concept (describe (some "Total Assets") "us-gaap.Assets")) :=
  ⟨⟨by decide, by decide, by decide⟩,
    c3_classifier_scoring (some "Total Assets") "us-gaap.Assets"
      (by decide) (by decide) (by decide)⟩

/-- C4 witness at concrete descriptions. -/
theorem c4_classifier_short_circuit_witness :
    classify_concept "decrease in inventory" = some Bucket.cash_flow
    ∧ classify_concept "other comprehensive income items" = some Bucket.balance_sheet :=
  ⟨c4_classifier_short_circuit.1 "decrease in inventory" (by decide),
   c4_classifier_short_circuit.2.1 "other comprehensive income items" (by decide) (by decide)⟩

/-- C5: on the example value set, computeRatios yields gross_profit_margin
value 40.0 formatted "40.00%", current_ratio 2.0, debt_to_equity 0.6,
roe 18.0 and earnings_per_share 9.0 formatted "$9.00". -/
theorem c5_ratio_example :
    alookup "gross_profit_margin" (calculate_ratios c5_values)
        = some (RatioResult.mk 40 "Gross Profit Margin" "40.00%")
    ∧ (alookup "current_ratio" (calculate_ratios c5_values)).map RatioResult.value
        = some 2
    ∧ (alookup "debt_to_equity" (calculate_ratios c5_values)).map RatioResult.value
        = some (Rat.divInt 3 5)
    ∧ (alookup "roe" (calculate_ratios c5_values)).map RatioResult.value = some 18
    ∧ alookup "earnings_per_share" (calculate_ratios c5_values)
        = some (RatioResult.mk 9 "Earnings Per Share" "$9.00") := by
  decide

theorem alookup_entry_skip {c : Prop} [Decidable c] {k k1 : String} {r : RatioResult}
    {rest : List (String × RatioResult)} (h : k1 ≠ k) :
    alookup k (entry c k1 r ++ rest) = alookup k rest := by
  unfold entry
  split
  · simp [alookup, h]
  · simp

theorem alookup_entry_guard {c : Prop} [Decidable c] {k k1 : String} {r : RatioResult}
    {rest : List (String × RatioResult)} (hc : ¬c) :
    alookup k (entry c k1 r ++ rest) = alookup k rest := by
  unfold entry
  rw [if_neg hc]
  simp

theorem alookup_nil (k : String) : alookup k ([] : List (String × α)) = none := rfl

theorem entry_false {k : String} {r : RatioResult} : entry False k r = [] := by
  unfold entry
  simp

theorem alookup_entry_ne {c : Prop} [Decidable c] {k k1 : String} {r : RatioResult}
    (h : k1 ≠ k) : alookup k (entry c k1 r) = none := by
  unfold entry
  split
  · simp [alookup, h]
  · rfl

/-- C6: when current_liabilities is zero, the keys current_ratio, quick_ratio
and cash_ratio are all absent from the ratio mapping (the computation is
total, so no error is raised either). -/
theorem c6_liquidity_boundary (v : ExtractedValues)
    (h : v.current_liabilities = 0) :
    alookup "current_ratio" (calculate_ratios v) = none
    ∧ alookup "quick_ratio" (calculate_ratios v) = none
    ∧ alookup "cash_ratio" (calculate_ratios v) = none := by
  have hng : ¬(0 < v.current_liabilities) := by
    rw [h]
    exact lt_irrefl 0
  refine ⟨?_, ?_, ?_⟩ <;>
    simp only [calculate_ratios, List.append_assoc, hng, eq_false,
      entry_false, List.nil_append, List.append_nil,
      alookup_entry_skip, alookup_entry_guard, alookup_entry_ne,
      ne_eq, String.reduceEq, not_false_eq_true, alookup_nil]

/-- C6 witness at a concrete value set. -/
theorem c6_liquidity_boundary_witness :
    (c5_values.current_liabilities = 0 → False) ∧
    ((ExtractedValues.mk 1 0 0 0 0 0 0 0 0 5 0 0 0 0 0 0 0 0).current_liabilities = 0
      ∧ (alookup "current_ratio"
          (calculate_ratios (ExtractedValues.mk 1 0 0 0 0 0 0 0 0 5 0 0 0 0 0 0 0 0)) = none
        ∧ alookup "quick_ratio"
          (calculate_ratios (ExtractedValues.mk 1 0 0 0 0 0 0 0 0 5 0 0 0 0 0 0 0 0)) = none
        ∧ alookup "cash_ratio"
          (calculate_ratios (ExtractedValues.mk 1 0 0 0 0 0 0 0 0 5 0 0 0 0 0 0 0 0)) = none)) :=
  ⟨by decide,
   ⟨by decide,
    c6_liquidity_boundary (ExtractedValues.mk 1 0 0 0 0 0 0 0 0 5 0 0 0 0 0 0 0 0) (by decide)⟩⟩

/-- C7: value extraction is ordered first-non-null lookup with a 0.0 default:
`_find_value_by_keywords` returns the value of the first listed key present
with a non-null `value` field and 0.0 when there is none, and the `revenue`
semantic key is looked up with the three revenue concept keys in order. -/
theorem c7_ordered_lookup_default_zero
    (statement_data : List (String × StoredFact)) (keywords : List String) :
    find_value_by_keywords statement_data keywords =
      ((keywords.filterMap fun k =>
        (alookup k statement_data).bind StoredFact.value).head?).getD 0
    ∧ ∀ inc bs cf : List (String × StoredFact),
        (extract_key_values inc bs cf).revenue = find_value_by_keywords inc revenue_keys := by
  refine ⟨?_, fun _ _ _ => rfl⟩
  induction keywords with
  | nil => rfl
  | cons k rest ih =>
    unfold find_value_by_keywords
    cases hk : alookup k statement_data with
    | none => simpa [List.filterMap_cons, hk] using ih
    | some e =>
      cases hv : e.value with
      | none => simpa [List.filterMap_cons, hk, hv] using ih
      | some q => simp [List.filterMap_cons, hk, hv]

/-- C1: if Tier 1 produces a classified result with any statement bucket
populated, the resolver returns that result having invoked only Tier 1; and
whenever the Tier-2 collaborator is invoked, no Tier-1 classified result with
a populated bucket exists. -/
theorem c1_resolver_short_circuit (t : TierInputs) (report_type period : String) :
    (∀ r : XBRLResult, t.xbrl = some r →
      anyStatementBucket r.financial_statements = true →
        get_financial_statements t report_type period = (ResolveResult.tier1 r, [Tier.t1]))
    ∧ (Tier.t2 ∈ (get_financial_statements t report_type period).2 →
        ∀ r : XBRLResult, t.xbrl = some r →
          anyStatementBucket r.financial_statements = false) := by
  constructor
  · intro r hr _
    unfold get_financial_statements
    rw [hr]
    rfl
  · intro hmem r hr
    unfold get_financial_statements at hmem
    rw [hr] at hmem
    simp only [Categorized.asDict, List.isEmpty_cons, Bool.not_false, if_true] at hmem
    simp at hmem

/-- C1 witness: a Tier-1 result with a populated income-statement bucket is
returned as-is with Tiers 2 and 3 never invoked, even with a non-empty Tier-2
collaborator standing by. -/
theorem c1_resolver_short_circuit_witness :
    get_financial_statements
        (TierInputs.mk
          (xbrl_build_result (some [("Revenues", XFact.mk (FactValue.num 100) none none "100")]))
          (some [("us-gaap.Assets", ConceptData.mk none [])]) none)
        "10-K" "2023"
      = (ResolveResult.tier1
          (XBRLResult.mk
            (categorize_financial_data
              [("Revenues", XFact.mk (FactValue.num 100) none none "100")]) 1),
         [Tier.t1]) :=
  (c1_resolver_short_circuit _ "10-K" "2023").1 _ rfl (by decide)

/-- C8 counterexample: when every Tier-3 endpoint of the failed company also
fails, `get_financial_statements` returns the empty dict, which is falsy, and
the peer-group loop omits that company: the two-company call yields a
one-entry aggregate, refuting "present and empty rather than omitted". -/
theorem c8_counterexample :
    get_peer_group_analysis
        (fun cik =>
          if cik = "0001" then
            TierInputs.mk
              (some (XBRLResult.mk
                (Categorized.mk [("Revenues", XFact.mk (FactValue.num 100) none none "100")]
                  [] [] []) 1)) none none
          else TierInputs.mk none none none)
        "10-K" "2023" ["0001", "0002"]
      = [("0001", ResolveResult.tier1 (XBRLResult.mk
          (Categorized.mk [("Revenues", XFact.mk (FactValue.num 100) none none "100")]
            [] [] []) 1))]
    ∧ alookup "0002"
        (get_peer_group_analysis
          (fun cik =>
            if cik = "0001" then
              TierInputs.mk
                (some (XBRLResult.mk
                  (Categorized.mk [("Revenues", XFact.mk (FactValue.num 100) none none "100")]
                    [] [] []) 1)) none none
            else TierInputs.mk none none none)
          "10-K" "2023" ["0001", "0002"]) = none := by
  decide

/-- C8 (amended): in a two-company peer-group call where company A resolves
to a truthy result and company B fails Tiers 1 and 2, company B's entry
depends on the Tier-3 fetch. If some Tier-3 endpoint answers and its
extraction classifies nothing, B is present in the aggregate with the
degenerate bundle whose three statement buckets are empty (the extraction
dict is truthy); if every Tier-3 endpoint fails, the resolver returns the
empty dict and B is omitted from the aggregate. In both cases A's entry is
returned and the batch does not error. -/
theorem c8_peer_group_amended (tiersOf : String → TierInputs)
    (report_type period a b : String)
    (hA : ((get_financial_statements (tiersOf a) report_type period).1).truthy = true)
    (hB1 : (tiersOf b).xbrl = none)
    (hB2 : (tiersOf b).filing = none) :
    (∀ d : FactsData, (tiersOf b).facts3 = some d →
      extract_financial_data d report_type period = Bundle.mk [] [] [] →
      get_peer_group_analysis tiersOf report_type period [a, b]
        = [(a, (get_financial_statements (tiersOf a) report_type period).1),
           (b, ResolveResult.tier3 (Bundle.mk [] [] []))])
    ∧ ((tiersOf b).facts3 = none →
      get_peer_group_analysis tiersOf report_type period [a, b]
        = [(a, (get_financial_statements (tiersOf a) report_type period).1)]) := by
  constructor
  · intro d hB3 hB4
    have hBres : get_financial_statements (tiersOf b) report_type period
        = (ResolveResult.tier3 (Bundle.mk [] [] []), [Tier.t1, Tier.t2, Tier.t3]) := by
      unfold get_financial_statements tier2_step tier3_step
      rw [hB1, hB2, hB3]
      simp [hB4]
    unfold get_peer_group_analysis
    simp only [List.filterMap_cons, List.filterMap_nil, hA, hBres, if_true]
    rfl
  · intro hB3
    have hBres : get_financial_statements (tiersOf b) report_type period
        = (ResolveResult.empty, [Tier.t1, Tier.t2, Tier.t3]) := by
      unfold get_financial_statements tier2_step tier3_step
      rw [hB1, hB2, hB3]
    unfold get_peer_group_analysis
    simp only [List.filterMap_cons, List.filterMap_nil, hA, hBres, if_true]
    rfl

/-- C8 witness on concrete collaborators, for the present-and-empty branch:
company "0001" succeeds at Tier 1; company "0002" fails Tiers 1 and 2 and
reaches a Tier-3 endpoint whose company-facts document classifies nothing. -/
theorem c8_peer_group_amended_witness :
    get_peer_group_analysis
        (fun cik =>
          if cik = "0001" then
            TierInputs.mk
              (some (XBRLResult.mk
                (Categorized.mk [("Revenues", XFact.mk (FactValue.num 100) none none "100")]
                  [] [] []) 1)) none none
          else TierInputs.mk none none (some []))
        "10-K" "2023" ["0001", "0002"]
      = [("0001", (get_financial_statements
            (TierInputs.mk
              (some (XBRLResult.mk
                (Categorized.mk [("Revenues", XFact.mk (FactValue.num 100) none none "100")]
                  [] [] []) 1)) none none) "10-K" "2023").1),
         ("0002", ResolveResult.tier3 (Bundle.mk [] [] []))] := by
  have := (c8_peer_group_amended
    (fun cik =>
      if cik = "0001" then
        TierInputs.mk
          (some (XBRLResult.mk
            (Categorized.mk [("Revenues", XFact.mk (FactValue.num 100) none none "100")]
              [] [] []) 1)) none none
      else TierInputs.mk none none (some []))
    "10-K" "2023" "0001" "0002" (by decide) (by decide) (by decide)).1
    [] (by decide) (by decide)
  simpa using this

/-- C9: evaluation of the code at the failing input. An instance document
whose fact elements carry non-empty text yields the empty parse result — no
fact is included at all, for any document — because the fact query at
xbrl_parser.py line 100 raises before the loop body can run, and the broad
handler returns the empty dict. The unreachable coercion guard would moreover
accept "1.2.3" and "--5", which are not valid float literals, so the claimed
exception-free fallback fails even of the loop body as written. -/
theorem c9_fact_loop_unreachable :
    (∀ elems : List FactElem, parse_xbrl_instance elems = none)
    ∧ parse_xbrl_instance [FactElem.mk "Revenues" (some "100") none none,
        FactElem.mk "PriorValue" (some "1.2.3") none none] = none
    ∧ includedElem (FactElem.mk "Revenues" (some "100") none none) = true
    ∧ digitFilterOk "1.2.3" = true ∧ parseDigitDotDash "1.2.3" = none
    ∧ digitFilterOk "--5" = true ∧ parseDigitDotDash "--5" = none :=
  ⟨fun _ => rfl, rfl, by decide, by decide, by decide, by decide, by decide⟩

/-- C10: evaluation of the code at the failing input. A document reporting
the same concept twice yields no facts-mapping entry at all: the parse result
is empty for every input (the fact loop never runs), so no last-occurrence
entry is ever retained and the dict-overwrite semantics of
xbrl_parser.py line 115 are dead code. -/
theorem c10_no_entry_retained :
    parse_xbrl_instance [FactElem.mk "Revenues" (some "100") none none,
        FactElem.mk "Revenues" (some "200") none none] = none
    ∧ ∀ elems : List FactElem, parse_xbrl_instance elems = none :=
  ⟨rfl, fun _ => rfl⟩
